import Mathlib

/-!
Shallow embedding of the agri crop-production dashboard (src/agri.py) and
proofs about its filter, aggregation, data-loading and rendering pipeline.
Pandas dataframes are modelled as lists of records, numeric cells as exact
rationals, and the numpy random source as an external stream of draws whose
range contract mirrors the documented behaviour of the numpy primitives.
-/

namespace Agri

/-- One row of the crop-production table, with the normalized column names
the script uses after load (src/agri.py lines 50-51). -/
structure Record where
  State_Name : String
  Crop_Year : Int
  Season : String
  Crop : String
  Area : ℚ
  Production : ℚ
deriving DecidableEq, Repr

/-- The year/state/crop filter (src/agri.py lines 69-73):
`df[(df.Crop_Year == selected_year) & df.State_Name.isin(selected_state)
& df.Crop.isin(selected_crops)]`. -/
def filtered_df (df : List Record) (selected_year : Int)
    (selected_state selected_crops : List String) : List Record :=
  df.filter fun r =>
    decide (r.Crop_Year = selected_year) &&
    selected_state.contains r.State_Name &&
    selected_crops.contains r.Crop

/-- `filtered_df['Production'].sum()` (src/agri.py line 76). -/
def total_production (l : List Record) : ℚ :=
  (l.map Record.Production).sum

/-- `filtered_df['Area'].sum()` (src/agri.py line 77). -/
def total_area (l : List Record) : ℚ :=
  (l.map Record.Area).sum

/-- `total_production / total_area if total_area > 0 else 0`
(src/agri.py line 78). -/
def avg_yield (l : List Record) : ℚ :=
  if 0 < total_area l then total_production l / total_area l else 0

/-- The secondary subset feeding the trend chart (src/agri.py lines 114-117):
state and crop filters only, no year filter. -/
def history_df (df : List Record) (selected_state selected_crops : List String) :
    List Record :=
  df.filter fun r =>
    selected_state.contains r.State_Name && selected_crops.contains r.Crop

/-- The distinct (Crop_Year, State_Name) keys of a subset, as used by the
`groupby(['Crop_Year', 'State_Name'])` on src/agri.py lines 119-121.
(pandas also sorts the keys; the grouping content is unaffected.) -/
def groupKeys (l : List Record) : List (Int × String) :=
  (l.map fun r => (r.Crop_Year, r.State_Name)).dedup

/-- Summed Production of the records of a subset having a given
(Crop_Year, State_Name) key (src/agri.py lines 119-121). -/
def groupSum (l : List Record) (k : Int × String) : ℚ :=
  total_production (l.filter fun r =>
    decide (r.Crop_Year = k.1) && decide (r.State_Name = k.2))

/-- `history_df.groupby(['Crop_Year','State_Name'])['Production'].sum()`
(src/agri.py lines 119-121) as a key-value list. -/
def yearly_prod (df : List Record) (selected_state selected_crops : List String) :
    List ((Int × String) × ℚ) :=
  (groupKeys (history_df df selected_state selected_crops)).map fun k =>
    (k, groupSum (history_df df selected_state selected_crops) k)

/-- Membership in the year/state/crop filtered subset, unfolded. -/
lemma mem_filtered_df (df : List Record) (y : Int) (S C : List String)
    (r : Record) :
    r ∈ filtered_df df y S C ↔
      r ∈ df ∧ r.Crop_Year = y ∧ r.State_Name ∈ S ∧ r.Crop ∈ C := by
  simp [filtered_df, List.mem_filter, List.elem_iff, and_assoc]

/-- Claim C1: membership in the filtered subset is exactly the conjunction of
the year, state and crop conditions, and an empty state or crop selection
yields the empty subset (no error: `filtered_df` is total). -/
theorem filtered_df_spec (df : List Record) (y : Int) (S C : List String) :
    (∀ r : Record, r ∈ filtered_df df y S C ↔
      r ∈ df ∧ r.Crop_Year = y ∧ r.State_Name ∈ S ∧ r.Crop ∈ C) ∧
    (S = [] → filtered_df df y S C = []) ∧
    (C = [] → filtered_df df y S C = []) := by
  refine ⟨mem_filtered_df df y S C, fun hS => ?_, fun hC => ?_⟩
  · subst hS
    simp [filtered_df]
  · subst hC
    simp [filtered_df]

/-- Claim C1 witness at a concrete dataset and selection. -/
theorem filtered_df_spec_witness :
    let r : Record := ⟨"Karnataka", 2020, "Kharif", "Rice", 100, 300⟩
    (r ∈ filtered_df [r] 2020 ["Karnataka"] ["Rice"] ↔
      r ∈ [r] ∧ r.Crop_Year = 2020 ∧ r.State_Name ∈ ["Karnataka"] ∧
        r.Crop ∈ ["Rice"]) ∧
    filtered_df [r] 2020 [] ["Rice"] = [] := by
  intro r
  exact ⟨(filtered_df_spec [r] 2020 ["Karnataka"] ["Rice"]).1 r,
    (filtered_df_spec [r] 2020 [] ["Rice"]).2.1 rfl⟩

/-- Claim C2: `avg_yield` is total production over total area when the total
area is positive, and the explicit guard returns 0 when the total area is
zero, so the division branch is never taken in that case. -/
theorem avg_yield_spec (l : List Record) :
    (0 < total_area l → avg_yield l = total_production l / total_area l) ∧
    (total_area l = 0 → avg_yield l = 0) := by
  constructor
  · intro h
    simp [avg_yield, h]
  · intro h
    simp [avg_yield, h]

/-- Claim C2 witness: on the empty subset the total area is 0 and the average
yield is 0; on a one-record subset with positive area it is the quotient. -/
theorem avg_yield_spec_witness :
    avg_yield [] = 0 ∧
    avg_yield [⟨"Karnataka", 2020, "Kharif", "Rice", 100, 300⟩] = 300 / 100 := by
  constructor
  · exact (avg_yield_spec []).2 rfl
  · have h := (avg_yield_spec [⟨"Karnataka", 2020, "Kharif", "Rice", 100, 300⟩]).1
      (by norm_num [total_area])
    simpa [total_production, total_area] using h

/-- Claim C3: the two totals are the sums of the Production and Area fields
(0 on the empty subset, one summand per record), and both are invariant under
permutation of the subset, hence order-independent and deterministic. -/
theorem totals_spec :
    total_production ([] : List Record) = 0 ∧
    total_area ([] : List Record) = 0 ∧
    (∀ (r : Record) (l : List Record),
      total_production (r :: l) = r.Production + total_production l ∧
      total_area (r :: l) = r.Area + total_area l) ∧
    (∀ l₁ l₂ : List Record, l₁.Perm l₂ →
      total_production l₁ = total_production l₂ ∧
      total_area l₁ = total_area l₂) := by
  refine ⟨rfl, rfl, fun r l => ⟨by simp [total_production], by simp [total_area]⟩,
    fun l₁ l₂ h => ⟨?_, ?_⟩⟩
  · exact ((h.map Record.Production).sum_eq :)
  · exact ((h.map Record.Area).sum_eq :)

/-- Claim C3 witness: the totals agree on two concrete orderings of the same
two records. -/
theorem totals_spec_witness :
    total_production [(⟨"Punjab", 2020, "Kharif", "Rice", 1, 2⟩ : Record),
        ⟨"Bihar", 2021, "Rabi", "Wheat", 3, 4⟩] =
      total_production [(⟨"Bihar", 2021, "Rabi", "Wheat", 3, 4⟩ : Record),
        ⟨"Punjab", 2020, "Kharif", "Rice", 1, 2⟩] ∧
    total_area [(⟨"Punjab", 2020, "Kharif", "Rice", 1, 2⟩ : Record),
        ⟨"Bihar", 2021, "Rabi", "Wheat", 3, 4⟩] =
      total_area [(⟨"Bihar", 2021, "Rabi", "Wheat", 3, 4⟩ : Record),
        ⟨"Punjab", 2020, "Kharif", "Rice", 1, 2⟩] :=
  totals_spec.2.2.2 _ _
    (List.Perm.swap (⟨"Bihar", 2021, "Rabi", "Wheat", 3, 4⟩ : Record)
      (⟨"Punjab", 2020, "Kharif", "Rice", 1, 2⟩ : Record) [])

/-- Claim C10: the year-filtered subset used by the metrics and the
bar/pie/scatter/table views is exactly the trend view's secondary subset
further restricted to the selected year, and is therefore contained in it. -/
theorem filtered_df_factors (df : List Record) (y : Int) (S C : List String) :
    filtered_df df y S C =
      (history_df df S C).filter (fun r => decide (r.Crop_Year = y)) ∧
    ∀ r ∈ filtered_df df y S C, r ∈ history_df df S C := by
  constructor
  · rw [filtered_df, history_df, List.filter_filter]
    apply List.filter_congr
    intro r _
    cases h1 : decide (r.Crop_Year = y) <;>
      cases h2 : S.contains r.State_Name <;>
      cases h3 : C.contains r.Crop <;> simp [h1, h2, h3]
  · intro r hr
    have h := (mem_filtered_df df y S C r).mp hr
    exact (List.mem_filter).mpr
      ⟨h.1, by simp [List.elem_iff, h.2.2.1, h.2.2.2]⟩

/-- Claim C10 witness at a concrete dataset and selection. -/
theorem filtered_df_factors_witness :
    let r : Record := ⟨"Punjab", 2021, "Rabi", "Wheat", 200, 700⟩
    filtered_df [r] 2021 ["Punjab"] ["Wheat"] =
      (history_df [r] ["Punjab"] ["Wheat"]).filter
        (fun s => decide (s.Crop_Year = 2021)) ∧
    ∀ s ∈ filtered_df [r] 2021 ["Punjab"] ["Wheat"],
      s ∈ history_df [r] ["Punjab"] ["Wheat"] :=
  filtered_df_factors [⟨"Punjab", 2021, "Rabi", "Wheat", 200, 700⟩]
    2021 ["Punjab"] ["Wheat"]

/-- Two stacked filters are one filter with the conjoined predicate. -/
lemma filter_filter_conj {α : Type} (p q : α → Bool) (l : List α) :
    (l.filter q).filter p = l.filter fun a => q a && p a := by
  induction l with
  | nil => rfl
  | cons a t ih => cases hq : q a <;> cases hp : p a <;> simp [hq, hp, ih]

/-- Claim C4: the trend chart's secondary subset applies only the state and
crop filters (so it has the matching records of every year, whatever the
selected year is), and its groups sum Production per (Crop_Year, State_Name)
key over the original dataset restricted to that key and those filters. -/
theorem history_df_spec (df : List Record) (S C : List String) :
    (∀ r : Record, r ∈ history_df df S C ↔
      r ∈ df ∧ r.State_Name ∈ S ∧ r.Crop ∈ C) ∧
    (∀ r ∈ df, r.State_Name ∈ S → r.Crop ∈ C → r ∈ history_df df S C) ∧
    (∀ k ∈ groupKeys (history_df df S C),
      groupSum (history_df df S C) k =
        total_production (df.filter fun r =>
          decide (r.Crop_Year = k.1) && decide (r.State_Name = k.2) &&
          S.contains r.State_Name && C.contains r.Crop)) ∧
    (∀ p ∈ yearly_prod df S C,
      p.2 = groupSum (history_df df S C) p.1 ∧
      p.1 ∈ groupKeys (history_df df S C)) := by
  have hmem : ∀ r : Record, r ∈ history_df df S C ↔
      r ∈ df ∧ r.State_Name ∈ S ∧ r.Crop ∈ C := by
    intro r
    simp [history_df, List.mem_filter, List.elem_iff, and_assoc]
  refine ⟨hmem, fun r hr hS hC => (hmem r).mpr ⟨hr, hS, hC⟩,
    fun k _ => ?_, fun p hp => ?_⟩
  · unfold groupSum history_df
    rw [filter_filter_conj]
    congr 1
    apply List.filter_congr
    intro r _
    cases h1 : decide (r.Crop_Year = k.1) <;>
      cases h2 : decide (r.State_Name = k.2) <;>
      cases h3 : S.contains r.State_Name <;>
      cases h4 : C.contains r.Crop <;> simp [h1, h2, h3, h4]
  · rcases List.mem_map.mp hp with ⟨k, hk, rfl⟩
    exact ⟨rfl, hk⟩

/-- Claim C4 witness at a concrete dataset: a record of a year other than the
selected one is still in the trend subset, and its group sums it. -/
theorem history_df_spec_witness :
    (⟨"Bihar", 2016, "Rabi", "Wheat", 50, 100⟩ : Record) ∈
      history_df [⟨"Bihar", 2016, "Rabi", "Wheat", 50, 100⟩] ["Bihar"] ["Wheat"] ∧
    groupSum (history_df [⟨"Bihar", 2016, "Rabi", "Wheat", 50, 100⟩]
        ["Bihar"] ["Wheat"]) (2016, "Bihar") =
      total_production
        ([⟨"Bihar", 2016, "Rabi", "Wheat", 50, 100⟩].filter fun r =>
          decide (r.Crop_Year = (2016 : Int)) && decide (r.State_Name = "Bihar") &&
          ["Bihar"].contains r.State_Name && ["Wheat"].contains r.Crop) := by
  have h := history_df_spec [⟨"Bihar", 2016, "Rabi", "Wheat", 50, 100⟩]
    ["Bihar"] ["Wheat"]
  refine ⟨h.2.1 _ (by simp) (by simp) (by simp), ?_⟩
  exact h.2.2.1 (2016, "Bihar") (by simp [groupKeys, history_df])

/-! ### The synthetic fallback generator (src/agri.py lines 20-52) -/

/-- The fixed state vocabulary (src/agri.py lines 20-21). -/
def states : List String :=
  ["Karnataka", "Maharashtra", "Punjab", "Uttar Pradesh", "Tamil Nadu", "Bihar"]

/-- The fixed crop vocabulary (src/agri.py lines 22-23). -/
def crops : List String :=
  ["Rice", "Maize", "Wheat", "Sugarcane", "Cotton", "Groundnut"]

/-- The fixed season vocabulary (src/agri.py line 24). -/
def seasons : List String := ["Kharif", "Rabi", "Whole Year"]

/-- `list(range(2015, 2024))` (src/agri.py line 25). -/
def years : List Int := [2015, 2016, 2017, 2018, 2019, 2020, 2021, 2022, 2023]

/-- The per-crop yield-factor dictionary (src/agri.py lines 35-42); looking up
a key not in the dictionary would raise in Python, and the generator only ever
looks up members of `crops`, on which this function agrees with the dict. -/
def yield_factor (c : String) : ℚ :=
  if c = "Rice" then 3
  else if c = "Wheat" then 7/2
  else if c = "Maize" then 4
  else if c = "Sugarcane" then 60
  else if c = "Cotton" then 1/2
  else if c = "Groundnut" then 3/2
  else 0

/-- Python `round(x, 2)` modelled over exact rationals. -/
def round2 (q : ℚ) : ℚ := (round (q * 100) : ℚ) / 100

/-- One iteration's worth of numpy randomness (src/agri.py lines 29-44):
indices into the four vocabularies for `np.random.choice`, the integer from
`np.random.randint(100, 10000)`, and the multiplier from
`np.random.uniform(0.8, 1.2)`; the range contracts of the two numeric draws
are documented numpy behaviour and appear as hypotheses of the theorems. -/
structure Draw where
  stateIdx : Fin 6
  cropIdx : Fin 6
  yearIdx : Fin 9
  seasonIdx : Fin 3
  area : Int
  mult : ℚ

/-- The record appended for one loop iteration (src/agri.py lines 29-46). -/
def genRecord (d : Draw) : Record where
  State_Name := states.get ⟨d.stateIdx.val, d.stateIdx.isLt⟩
  Crop_Year := years.get ⟨d.yearIdx.val, d.yearIdx.isLt⟩
  Season := seasons.get ⟨d.seasonIdx.val, d.seasonIdx.isLt⟩
  Crop := crops.get ⟨d.cropIdx.val, d.cropIdx.isLt⟩
  Area := (d.area : ℚ)
  Production := round2 ((d.area : ℚ) *
    yield_factor (crops.get ⟨d.cropIdx.val, d.cropIdx.isLt⟩) * d.mult)

/-- `for _ in range(1000): ... data.append(...)` (src/agri.py lines 27-46):
the synthetic dataset built from a stream of random draws. -/
def syntheticData (rng : Nat → Draw) : List Record :=
  (List.range 1000).map fun i => genRecord (rng i)

/-- Rounding to two decimals keeps a quantity that is at least 40 positive. -/
lemma round2_pos {q : ℚ} (h : 40 ≤ q) : 0 < round2 q := by
  have h1 : (4000 : ℤ) ≤ round (q * 100) := by
    rw [round_eq]
    refine Int.le_floor.mpr ?_
    push_cast
    linarith
  have h2 : (0 : ℚ) < ((round (q * 100) : ℤ) : ℚ) := by
    exact_mod_cast lt_of_lt_of_le (by norm_num) h1
  unfold round2
  exact div_pos h2 (by norm_num)

/-- Every crop in the vocabulary has yield factor at least one half. -/
lemma yield_factor_ge {c : String} (hc : c ∈ crops) :
    (1/2 : ℚ) ≤ yield_factor c := by
  fin_cases hc <;> simp +decide [yield_factor] <;> norm_num

/-- The properties of a single generated record, given the range contracts of
the two numeric random draws. -/
lemma genRecord_spec (d : Draw) (ha1 : 100 ≤ d.area) (ha2 : d.area < 10000)
    (hm1 : 4/5 ≤ d.mult) (hm2 : d.mult < 6/5) :
    (genRecord d).State_Name ∈ states ∧ (genRecord d).Crop ∈ crops ∧
    (genRecord d).Season ∈ seasons ∧
    2015 ≤ (genRecord d).Crop_Year ∧ (genRecord d).Crop_Year ≤ 2023 ∧
    (∃ a : ℤ, (genRecord d).Area = (a : ℚ) ∧ 100 ≤ a ∧ a < 10000) ∧
    (∃ m : ℚ, 4/5 ≤ m ∧ m < 6/5 ∧
      (genRecord d).Production =
        round2 ((genRecord d).Area * yield_factor (genRecord d).Crop * m)) ∧
    0 < (genRecord d).Production := by
  have hyears : ∀ y ∈ years, 2015 ≤ y ∧ y ≤ 2023 := by decide
  have hy := hyears _ (List.get_mem years d.yearIdx.val d.yearIdx.isLt)
  have hcrop : (genRecord d).Crop ∈ crops :=
    List.get_mem crops d.cropIdx.val d.cropIdx.isLt
  have harea : (100 : ℚ) ≤ (d.area : ℚ) := by exact_mod_cast ha1
  have hyfc := yield_factor_ge hcrop
  have hmpos : (0 : ℚ) < d.mult := by linarith
  have h1 : (100 : ℚ) * (1/2) ≤ (d.area : ℚ) * yield_factor (genRecord d).Crop :=
    mul_le_mul harea hyfc (by norm_num) (by linarith)
  have h2 : (100 : ℚ) * (1/2) * (4/5) ≤
      (d.area : ℚ) * yield_factor (genRecord d).Crop * d.mult :=
    mul_le_mul h1 hm1 (by norm_num) (by linarith)
  have hq : (40 : ℚ) ≤ (d.area : ℚ) * yield_factor (genRecord d).Crop * d.mult := by
    linarith
  refine ⟨List.get_mem states d.stateIdx.val d.stateIdx.isLt, hcrop,
    List.get_mem seasons d.seasonIdx.val d.seasonIdx.isLt,
    hy.1, hy.2, ⟨d.area, rfl, ha1, ha2⟩, ⟨d.mult, hm1, hm2, rfl⟩, ?_⟩
  exact round2_pos hq

/-- Claim C5: with an absent input file, the generator yields exactly 1000
records; every record draws its state, crop and season from the fixed
vocabularies, its year from 2015-2023, its area as an integer in
[100, 10000), and its production is area times the per-crop yield factor
times a multiplier in [0.8, 1.2), rounded to two decimals and positive. -/
theorem synthetic_generator_spec (rng : Nat → Draw)
    (harea : ∀ i, 100 ≤ (rng i).area ∧ (rng i).area < 10000)
    (hmult : ∀ i, 4/5 ≤ (rng i).mult ∧ (rng i).mult < 6/5) :
    (syntheticData rng).length = 1000 ∧
    (yield_factor "Rice" = 3 ∧ yield_factor "Wheat" = 7/2 ∧
      yield_factor "Maize" = 4 ∧ yield_factor "Sugarcane" = 60 ∧
      yield_factor "Cotton" = 1/2 ∧ yield_factor "Groundnut" = 3/2) ∧
    ∀ r ∈ syntheticData rng,
      r.State_Name ∈ states ∧ r.Crop ∈ crops ∧ r.Season ∈ seasons ∧
      2015 ≤ r.Crop_Year ∧ r.Crop_Year ≤ 2023 ∧
      (∃ a : ℤ, r.Area = (a : ℚ) ∧ 100 ≤ a ∧ a < 10000) ∧
      (∃ m : ℚ, 4/5 ≤ m ∧ m < 6/5 ∧
        r.Production = round2 (r.Area * yield_factor r.Crop * m)) ∧
      0 < r.Production := by
  refine ⟨by simp [syntheticData], by simp +decide [yield_factor], fun r hr => ?_⟩
  rcases List.mem_map.mp hr with ⟨i, _, rfl⟩
  exact genRecord_spec (rng i) (harea i).1 (harea i).2 (hmult i).1 (hmult i).2

/-- A concrete draw: first vocabulary entries, area 100, multiplier 1. -/
def constDraw : Draw := ⟨0, 0, 0, 0, 100, 1⟩

/-- Claim C5 witness on a concrete in-contract random stream. -/
theorem synthetic_generator_spec_witness :
    (syntheticData fun _ => constDraw).length = 1000 ∧
    0 < (genRecord constDraw).Production := by
  have h := synthetic_generator_spec (fun _ => constDraw)
    (fun i => ⟨by norm_num [constDraw], by norm_num [constDraw]⟩)
    (fun i => ⟨by norm_num [constDraw], by norm_num [constDraw]⟩)
  refine ⟨h.1, ?_⟩
  have hm : genRecord constDraw ∈ syntheticData fun _ => constDraw :=
    List.mem_map.mpr ⟨0, List.mem_range.mpr (by norm_num), rfl⟩
  exact (h.2.2 _ hm).2.2.2.2.2.2.2

/-! ### Loading the dataset (src/agri.py lines 11-54) -/

/-- A parsed CSV table: the header row and the data rows, cells as text. -/
structure RawTable where
  headers : List String
  rows : List (List String)
deriving DecidableEq, Repr

/-- The possible outcomes of `pd.read_csv("crop_production.csv")`
(src/agri.py line 14): a parsed table, a missing file, or any other
failure (malformed file, permission error, parse error). -/
inductive FsOutcome where
  | found (t : RawTable)
  | notFound
  | failure (msg : String)

/-- `df.columns.str.strip().str.replace(" ", "_")` on one column name
(src/agri.py line 15), modelled on the character list of the string since
both pandas operations act charwise here (the replace pattern is the
one-character string " "). -/
def stripChars (l : List Char) : List Char :=
  ((l.dropWhile Char.isWhitespace).reverse.dropWhile Char.isWhitespace).reverse

def normalizeCol (s : String) : String :=
  ⟨(stripChars s.data).map fun c => if c = ' ' then '_' else c⟩

/-- Column normalization leaves the rows untouched (src/agri.py line 15
assigns only `df.columns`). -/
def normalizeTable (t : RawTable) : RawTable :=
  { headers := t.headers.map normalizeCol, rows := t.rows }

/-- What `load_data` hands back: the normalized parsed table on the file
path, the generated records on the fallback path. -/
inductive LoadedData where
  | table (t : RawTable)
  | synthetic (records : List Record)

/-- src/agri.py lines 11-54: read the CSV and normalize its column names; on
FileNotFoundError emit the `st.warning` (the Bool) and fall back to the
synthetic generator; any other exception is not caught, modelled by
`Except.error`. -/
def load_data (fs : FsOutcome) (rng : Nat → Draw) :
    Except String (Bool × LoadedData) :=
  match fs with
  | .found t => .ok (false, .table (normalizeTable t))
  | .notFound => .ok (true, .synthetic (syntheticData rng))
  | .failure msg => .error msg

/-- Claim C6: `load_data` recovers from exactly one error kind — a missing
file yields a non-fatal warning plus the synthetic dataset — while any other
load failure propagates uncaught, and a successful read warns nobody. -/
theorem load_data_error_handling (rng : Nat → Draw) :
    load_data .notFound rng = .ok (true, .synthetic (syntheticData rng)) ∧
    (∀ msg, load_data (.failure msg) rng = .error msg) ∧
    (∀ t, load_data (.found t) rng = .ok (false, .table (normalizeTable t))) :=
  ⟨rfl, fun _ => rfl, fun _ => rfl⟩

/-- Claim C7: on a successful load every column name is trimmed and its
spaces become underscores while the row data is returned unchanged, and the
header " Crop Year " becomes addressable as "Crop_Year". -/
theorem load_success_normalizes (t : RawTable) (rng : Nat → Draw) :
    load_data (.found t) rng = .ok (false, .table (normalizeTable t)) ∧
    (normalizeTable t).rows = t.rows ∧
    (normalizeTable t).headers = t.headers.map normalizeCol ∧
    normalizeCol " Crop Year " = "Crop_Year" :=
  ⟨rfl, rfl, rfl, by decide⟩

/-! ### Sidebar defaults (src/agri.py lines 57-68) -/

/-- Python `sorted(set-like unique values)`: sort the deduplicated list.
(`unique` keeps first occurrences; `sorted` orders them.) -/
def sortedDedup {α : Type} [LinearOrder α] (l : List α) : List α :=
  List.insertionSort (· ≤ ·) l.dedup

/-- `sorted(df['Crop_Year'].unique())` (src/agri.py line 57). -/
def all_years (df : List Record) : List Int :=
  sortedDedup (df.map Record.Crop_Year)

/-- The selectbox default `index=len(all_years) - 1` (src/agri.py lines
58-60): the last entry of the sorted year list. -/
def default_year (df : List Record) : Int := (all_years df).getLastD 0

/-- `sorted(df['State_Name'].unique())` (src/agri.py line 61). -/
def all_states (df : List Record) : List String :=
  sortedDedup (df.map Record.State_Name)

/-- The multiselect default `all_states[:2]` (src/agri.py lines 62-64). -/
def default_states (df : List Record) : List String := (all_states df).take 2

/-- `sorted(df['Crop'].unique())` (src/agri.py line 65). -/
def all_crops (df : List Record) : List String :=
  sortedDedup (df.map Record.Crop)

/-- The multiselect default `all_crops[:3]` (src/agri.py lines 66-68). -/
def default_crops (df : List Record) : List String := (all_crops df).take 3

/-- The defaulted last element of a nonempty list is one of its elements. -/
lemma getLastD_mem_of_ne_nil {α : Type} :
    ∀ (l : List α), l ≠ [] → ∀ d, l.getLastD d ∈ l
  | [], h, _ => absurd rfl h
  | a :: t, _, d => by
    rw [List.getLastD_cons]
    rcases eq_or_ne t [] with rfl | ht
    · simp
    · exact List.mem_cons_of_mem a (getLastD_mem_of_ne_nil t ht a)

/-- In a sorted list every element is at most the defaulted last element. -/
lemma le_getLastD_of_sorted {α : Type} [LinearOrder α] :
    ∀ l : List α, l.Sorted (· ≤ ·) → ∀ x ∈ l, ∀ d, x ≤ l.getLastD d
  | [], _, x, hx, _ => absurd hx (by simp)
  | a :: t, hs, x, hx, d => by
    rw [List.getLastD_cons]
    rcases List.mem_cons.mp hx with rfl | hxt
    · rcases eq_or_ne t [] with rfl | ht
      · simp
      · exact List.rel_of_sorted_cons hs _ (getLastD_mem_of_ne_nil t ht x)
    · exact le_getLastD_of_sorted t hs.of_cons x hxt a

/-- The first `n` entries of the sorted deduplication of a list are sorted,
distinct elements of the list, there are `min n` (number of distinct
elements) of them, and every element of the list outside them bounds them
from above: they are the `n` smallest distinct elements. -/
lemma sorted_dedup_take_spec {α : Type} [LinearOrder α] (l : List α) (n : ℕ) :
    List.Sorted (· ≤ ·) ((sortedDedup l).take n) ∧
    ((sortedDedup l).take n).Nodup ∧
    ((sortedDedup l).take n).length = min n (sortedDedup l).length ∧
    (∀ x ∈ (sortedDedup l).take n, x ∈ l) ∧
    (∀ x ∈ l, x ∉ (sortedDedup l).take n →
      ∀ t ∈ (sortedDedup l).take n, t ≤ x) := by
  set Ls := sortedDedup l with hLs
  rw [sortedDedup] at hLs
  have hsorted : List.Sorted (· ≤ ·) Ls := List.sorted_insertionSort _ _
  have hperm : Ls.Perm l.dedup := List.perm_insertionSort _ _
  have hnodup : Ls.Nodup := hperm.nodup_iff.mpr l.nodup_dedup
  refine ⟨hsorted.sublist (List.take_sublist n Ls),
    hnodup.sublist (List.take_sublist n Ls),
    List.length_take n Ls,
    fun x hx => List.mem_dedup.mp (hperm.mem_iff.mp ((List.take_sublist n Ls).subset hx)),
    fun x hxl hxn t ht => ?_⟩
  have hxLs : x ∈ Ls := hperm.mem_iff.mpr (List.mem_dedup.mpr hxl)
  have hsplit := List.take_append_drop n Ls
  have hx2 : x ∈ Ls.take n ++ Ls.drop n := by rw [hsplit]; exact hxLs
  rcases List.mem_append.mp hx2 with hmem | hmem
  · exact absurd hmem hxn
  · have hpair : List.Pairwise (· ≤ ·) (Ls.take n ++ Ls.drop n) := by
      rw [hsplit]; exact hsorted
    exact (List.pairwise_append.mp hpair).2.2 t ht x hmem

/-- Claim C8: the default year is the maximum year present in the dataset,
and the default state and crop selections are the lexicographically first
two distinct states and first three distinct crops present: each default is
a sorted duplicate-free selection of values from the dataset of the stated
size, bounded above by every value it leaves out. -/
theorem defaults_spec (df : List Record) (h : df ≠ []) :
    (default_year df ∈ df.map Record.Crop_Year ∧
      ∀ r ∈ df, r.Crop_Year ≤ default_year df) ∧
    (List.Sorted (· ≤ ·) (default_states df) ∧ (default_states df).Nodup ∧
      (default_states df).length = min 2 (all_states df).length ∧
      (∀ s ∈ default_states df, s ∈ df.map Record.State_Name) ∧
      (∀ s ∈ df.map Record.State_Name, s ∉ default_states df →
        ∀ t ∈ default_states df, t ≤ s)) ∧
    (List.Sorted (· ≤ ·) (default_crops df) ∧ (default_crops df).Nodup ∧
      (default_crops df).length = min 3 (all_crops df).length ∧
      (∀ s ∈ default_crops df, s ∈ df.map Record.Crop) ∧
      (∀ s ∈ df.map Record.Crop, s ∉ default_crops df →
        ∀ t ∈ default_crops df, t ≤ s)) := by
  refine ⟨⟨?_, ?_⟩, sorted_dedup_take_spec (df.map Record.State_Name) 2,
    sorted_dedup_take_spec (df.map Record.Crop) 3⟩
  · have hne : all_years df ≠ [] := by
      intro hcon
      have hlen := (List.perm_insertionSort
        ((· ≤ ·) : Int → Int → Prop) (df.map Record.Crop_Year).dedup).length_eq
      rw [show List.insertionSort (· ≤ ·) (df.map Record.Crop_Year).dedup
          = all_years df from rfl, hcon] at hlen
      have hd : (df.map Record.Crop_Year).dedup = [] :=
        List.length_eq_zero.mp hlen.symm
      exact h (List.map_eq_nil_iff.mp ((List.dedup_eq_nil _).mp hd))
    have hm : default_year df ∈ all_years df := getLastD_mem_of_ne_nil _ hne 0
    have hd : default_year df ∈ (df.map Record.Crop_Year).dedup :=
      (List.perm_insertionSort _ _).mem_iff.mp hm
    exact List.mem_dedup.mp hd
  · intro r hr
    have hm : r.Crop_Year ∈ all_years df :=
      (List.perm_insertionSort _ _).mem_iff.mpr
        (List.mem_dedup.mpr (List.mem_map_of_mem Record.Crop_Year hr))
    exact le_getLastD_of_sorted (all_years df)
      (List.sorted_insertionSort _ _) _ hm 0

/-- Claim C8 witness on a concrete two-record dataset with distinct years,
states and crops. -/
theorem defaults_spec_witness :
    let df : List Record := [⟨"Punjab", 2019, "Rabi", "Wheat", 10, 35⟩,
      ⟨"Bihar", 2021, "Kharif", "Rice", 20, 60⟩]
    (default_year df ∈ df.map Record.Crop_Year ∧
      ∀ r ∈ df, r.Crop_Year ≤ default_year df) ∧
    (default_states df).length = min 2 (all_states df).length ∧
    ∀ s ∈ default_states df, s ∈ df.map Record.State_Name := by
  intro df
  have h := defaults_spec df (by simp [df])
  exact ⟨h.1, h.2.1.2.2.1, h.2.1.2.2.2.1⟩

/-! ### Process lifecycle: the memoized dataset and the render cycle -/

/-- Modelled from the spec: `@st.cache_data` on `load_data` (src/agri.py
line 11) — streamlit itself is not part of this repository — per the spec,
"Result is memoized: subsequent calls within the same process return the
same in-memory table without re-reading or re-generating". The cache is made
an explicit state; the Bool reports whether the body actually ran. -/
def cachedLoad (compute : Unit → List Record) (cache : Option (List Record)) :
    List Record × Option (List Record) × Bool :=
  match cache with
  | some t => (t, some t, false)
  | none => (compute (), some (compute ()), true)

/-- Everything one top-to-bottom run of the script derives from the dataset
(src/agri.py lines 55-146), plus the dataset variable as the run leaves it:
no statement of the script rebinds or mutates `df` after load. -/
structure CycleOut where
  dataset : List Record
  filtered : List Record
  totalProduction : ℚ
  totalArea : ℚ
  avgYield : ℚ
  trend : List ((Int × String) × ℚ)

/-- One interaction cycle: load through the cache, filter, aggregate, build
the chart inputs; the returned cache is the only surviving state. -/
def runCycle (compute : Unit → List Record) (cache : Option (List Record))
    (y : Int) (S C : List String) : CycleOut × Option (List Record) :=
  let df := (cachedLoad compute cache).1
  (⟨df, filtered_df df y S C,
    total_production (filtered_df df y S C),
    total_area (filtered_df df y S C),
    avg_yield (filtered_df df y S C),
    yearly_prod df S C⟩,
   (cachedLoad compute cache).2.1)

/-- Claim C9: a warm cache is returned as-is without recomputation, the
first load fills the cache with exactly the loaded dataset, and every
interaction cycle leaves the dataset it loaded unchanged — in particular the
cycle after the first load still sees the originally loaded dataset. -/
theorem dataset_loaded_once (compute : Unit → List Record) (y y2 : Int)
    (S C S2 C2 : List String) :
    (∀ t, cachedLoad compute (some t) = (t, some t, false)) ∧
    (cachedLoad compute none).2.1 = some ((cachedLoad compute none).1) ∧
    (∀ cache,
      (runCycle compute cache y S C).1.dataset = (cachedLoad compute cache).1 ∧
      (runCycle compute cache y S C).2 = (cachedLoad compute cache).2.1) ∧
    (runCycle compute ((cachedLoad compute none).2.1) y2 S2 C2).1.dataset =
      (cachedLoad compute none).1 ∧
    (runCycle compute ((cachedLoad compute none).2.1) y2 S2 C2).2 =
      (cachedLoad compute none).2.1 :=
  ⟨fun _ => rfl, rfl, fun _ => ⟨rfl, rfl⟩, rfl, rfl⟩

end Agri
